import Mathlib

/-!
Verification of the scripting-bridge layer of BlackTek-Server
(`src/luascript.cpp`): per-call script environments and their uid handle
table, the Lua type-registration / `isType` dispatch, and the deferred
execution (addEvent / stopEvent) subsystem.

The C++ is shallowly embedded: `std::map<uint32_t, T>` becomes a sorted
association list over `Nat` keys, pointers become address fields compared
for equality, `uint32_t` arithmetic carries an explicit `% 2^32`, and the
Lua C stack (needed for `luaIsType`) is a list of values with 1-based
absolute and negative indexing, with C-level undefined behaviour mapped to
`Except.error`.
-/

/-! ## Ordered-map model for std::map<uint32_t, V> -/

/-- Lookup in an association list, mirroring `std::map::find`. -/
def mapFind {α : Type} : List (Nat × α) → Nat → Option α
  | [], _ => none
  | (k', v') :: rest, k => if k = k' then some v' else mapFind rest k

/-- `m[k] = v` on a key-sorted association list: overwrite the entry if the
key is present, otherwise insert it at its sorted position
(`std::map::operator[]` followed by assignment). -/
def mapInsertSorted {α : Type} : List (Nat × α) → Nat → α → List (Nat × α)
  | [], k, v => [(k, v)]
  | (k', v') :: rest, k, v =>
    if k < k' then (k, v) :: (k', v') :: rest
    else if k = k' then (k, v) :: rest
    else (k', v') :: mapInsertSorted rest k v

/-- `std::map::emplace`: insert only when the key is absent; the boolean is
the `second` of the returned pair (whether insertion took place). -/
def mapEmplace {α : Type} (m : List (Nat × α)) (k : Nat) (v : α) :
    List (Nat × α) × Bool :=
  match mapFind m k with
  | some _ => (m, false)
  | none => (mapInsertSorted m k v, true)

/-- `std::map::erase(iterator)` after a successful `find`: remove the entry
with the given key (a `std::map` holds at most one). -/
def mapErase {α : Type} : List (Nat × α) → Nat → List (Nat × α)
  | [], _ => []
  | (k', v') :: rest, k => if k = k' then rest else (k', v') :: mapErase rest k

/-! ## Engine objects

`Thing` is the base of the engine objects that cross the bridge through the
uid paths modelled here: creatures (identified by `getID()`) and items.
An `ItemPtr` is a shared pointer, so two handles are `==` iff they manage
the same object; the `addr` field models that pointer identity.
`inVirtualCylinder` models `getParent() == VirtualCylinder::virtualCylinder`. -/

structure Item where
  addr : Nat
  uniqueId : Option Nat
  removed : Bool
  inVirtualCylinder : Bool
deriving DecidableEq, Repr

inductive Thing where
  | creature (cid : Nat) (removed : Bool)
  | item (i : Item)
deriving DecidableEq, Repr

/-- `Thing::isRemoved`. -/
def Thing.isRemoved : Thing → Bool
  | .creature _ r => r
  | .item i => i.removed

/-- External game-engine lookups used by `ScriptEnvironment::getThingByUID`:
`g_game.getCreatureByID` and `g_game.getUniqueItem`. -/
structure GameState where
  creaturesById : Nat → Option Thing
  uniqueItems : Nat → Option Item

/-! ## ScriptEnvironment (per-instance state)

`tempResults`, `lastResultId` and `tempItems` are declared `static` in the
source (luascript.cpp lines 49-52), so they live in `LuaGlobalState` below,
keyed (for `tempItems`) by the environment's `this` pointer. -/

structure ScriptEnvironment where
  scriptId : Int
  callbackId : Int
  timerEvent : Bool
  interface : Option Nat
  localMap : List (Nat × Item)
  lastUID : Nat
deriving DecidableEq, Repr

/-- The static members of `ScriptEnvironment`: the shared DB-result cache
`tempResults` with its counter `lastResultId`, and the shared temp-item
multimap `tempItems` keyed by owning environment (`this` pointer, a `Nat`). -/
structure LuaGlobalState where
  tempResults : List (Nat × Nat)
  lastResultId : Nat
  tempItems : List (Nat × Item)
deriving DecidableEq, Repr

/-- The search loop inside `ScriptEnvironment::addThing` (lines 124-128):
scan `localMap` in key order and return the first uid already bound to the
same item pointer. -/
def findUidFor : List (Nat × Item) → Item → Option Nat
  | [], _ => none
  | (k, v) :: rest, i => if v.addr = i.addr then some k else findUidFor rest i

/-- Number of `localMap` entries bound to the given item pointer. -/
def countEntriesFor : List (Nat × Item) → Item → Nat
  | [], _ => 0
  | (_, v) :: rest, i => (if v.addr = i.addr then 1 else 0) + countEntriesFor rest i

/-- `ScriptEnvironment::addThing` (lines 109-132): null or removed things
yield 0; creatures yield their id; items carrying ITEM_ATTRIBUTE_UNIQUEID
yield that unique id; otherwise an existing local binding is reused, or the
item is stored under the next local uid (`++lastUID`, a `uint32_t`). -/
def addThing (env : ScriptEnvironment) (thing : Option Thing) :
    Nat × ScriptEnvironment :=
  match thing with
  | none => (0, env)
  | some t =>
    if t.isRemoved then (0, env)
    else
      match t with
      | Thing.creature cid _ => (cid, env)
      | Thing.item i =>
        match i.uniqueId with
        | some u => (u, env)
        | none =>
          match findUidFor env.localMap i with
          | some uid => (uid, env)
          | none =>
            let uid := (env.lastUID + 1) % 4294967296
            (uid, { env with
                      lastUID := uid,
                      localMap := mapInsertSorted env.localMap uid i })

/-- `ScriptEnvironment::insertItem` (lines 134-140): `emplace` the binding;
when the uid is already taken the map is untouched and the source only
prints a diagnostic (the boolean records `result.second`). -/
def insertItem (env : ScriptEnvironment) (uid : Nat) (item : Item) :
    ScriptEnvironment × Bool :=
  let r := mapEmplace env.localMap uid item
  ({ env with localMap := r.1 }, r.2)

/-- `ScriptEnvironment::getThingByUID` (lines 142-163): uids at or above
0x10000000 go to `g_game.getCreatureByID`; uids up to 0xFFFF go to
`g_game.getUniqueItem` with a removed-object check; the remaining range is
looked up in the per-context `localMap`, also rejecting removed items. -/
def getThingByUID (env : ScriptEnvironment) (g : GameState) (uid : Nat) :
    Option Thing :=
  if uid ≥ 0x10000000 then g.creaturesById uid
  else if uid ≤ 0xFFFF then
    match g.uniqueItems uid with
    | some item => if !item.removed then some (Thing.item item) else none
    | none => none
  else
    match mapFind env.localMap uid with
    | some item => if !item.removed then some (Thing.item item) else none
    | none => none

/-- `ScriptEnvironment::setCallbackId` (lines 86-99): a second callback on a
context already processing one is rejected (the source reports "Nested
callbacks!" and returns false) leaving the context untouched; otherwise the
id and interface pointer are stored. -/
def setCallbackId (env : ScriptEnvironment) (cb : Int) (ifaceId : Nat) :
    Bool × ScriptEnvironment :=
  if env.callbackId ≠ 0 then (false, env)
  else (true, { env with callbackId := cb, interface := some ifaceId })

/-- The loop of `ScriptEnvironment::resetEnv` over `tempItems` (lines
75-83): every entry owned by `self` is erased. The source tests
`item->getParent() == VirtualCylinder::virtualCylinder` but the release
call on line 80 (`g_game.ReleaseItem(item)`) is commented out, so no item
is ever handed back to the engine; the second component collects the
`ReleaseItem` calls performed, which is therefore always empty. -/
def resetTempLoop (self : Nat) : List (Nat × Item) → List (Nat × Item) × List Item
  | [] => ([], [])
  | (owner, item) :: rest =>
    let r := resetTempLoop self rest
    if owner = self then r
    else ((owner, item) :: r.1, r.2)

/-- `ScriptEnvironment::resetEnv` (lines 66-84): zero the ids and flags,
clear the local uid table, clear the *static* `tempResults` map, and erase
this environment's `tempItems` entries (releasing nothing, see
`resetTempLoop`). The result is (new per-instance state, new static state,
items released to the engine). -/
def resetEnv (self : Nat) (env : ScriptEnvironment) (g : LuaGlobalState) :
    ScriptEnvironment × LuaGlobalState × List Item :=
  let r := resetTempLoop self g.tempItems
  ({ env with
      scriptId := 0, callbackId := 0, timerEvent := false,
      interface := none, localMap := [] },
   { g with tempResults := [], tempItems := r.1 },
   r.2)

/-- `ScriptEnvironment::addTempItem` (lines 195-198). -/
def addTempItem (self : Nat) (g : LuaGlobalState) (item : Item) : LuaGlobalState :=
  { g with tempItems := (self, item) :: g.tempItems }

/-- `ScriptEnvironment::addResult` (lines 210-214): store the handle in the
static `tempResults` under `++lastResultId` (a `uint32_t`). The result id
is returned together with the new static state. -/
def addResult (g : LuaGlobalState) (res : Nat) : Nat × LuaGlobalState :=
  let id := (g.lastResultId + 1) % 4294967296
  (id, { g with lastResultId := id,
                tempResults := mapInsertSorted g.tempResults id res })

/-- `ScriptEnvironment::getResultByID` (lines 227-234). -/
def getResultByID (g : LuaGlobalState) (id : Nat) : Option Nat :=
  match mapFind g.tempResults id with
  | some r => some r
  | none => none

/-! ## Deferred execution: timer descriptors, stopEvent, executeTimerEvent

`LuaTimerEventDesc` holds Lua registry references (`luaL_ref` integers) for
the callback and its captured arguments. `luaL_unref` calls are recorded in
a list so that "released exactly once" is a statement about occurrence
counts. -/

structure LuaTimerEventDesc where
  func : Nat
  parameters : List Nat
  scriptId : Int
  eventId : Nat
deriving DecidableEq, Repr

/-- The `LuaEnvironment` timer registry: `timerEvents` plus the
monotonically increasing `lastEventTimerId` (a `uint32_t`). -/
structure LuaTimerState where
  timerEvents : List (Nat × LuaTimerEventDesc)
  lastEventTimerId : Nat
deriving DecidableEq, Repr

structure StopEventResult where
  returned : Bool
  timers : LuaTimerState
  schedulerStops : List Nat
  unrefs : List Nat
deriving DecidableEq, Repr

structure FireEventResult where
  timers : LuaTimerState
  invoked : Bool
  unrefs : List Nat
deriving DecidableEq, Repr

/-- `LuaScriptInterface::luaStopEvent` (lines 4021-4045): an id not in
`timerEvents` pushes false and does nothing; otherwise the descriptor is
moved out and erased, the scheduler task is stopped, and the function and
every captured parameter reference is unreferenced, then true is pushed. -/
def luaStopEvent (st : LuaTimerState) (eventId : Nat) : StopEventResult :=
  match mapFind st.timerEvents eventId with
  | none => ⟨false, st, [], []⟩
  | some desc =>
    ⟨true,
     { st with timerEvents := mapErase st.timerEvents eventId },
     [desc.eventId],
     desc.func :: desc.parameters⟩

/-- `LuaEnvironment::executeTimerEvent` (lines 20624-20657): an unknown
index returns at once; otherwise the descriptor is erased, the callback is
invoked when a script environment can be reserved (`reserveOk`), and — on
either outcome of the reservation — the function and every parameter
reference is unreferenced exactly once. -/
def executeTimerEvent (st : LuaTimerState) (reserveOk : Bool)
    (eventIndex : Nat) : FireEventResult :=
  match mapFind st.timerEvents eventIndex with
  | none => ⟨st, false, []⟩
  | some desc =>
    ⟨{ st with timerEvents := mapErase st.timerEvents eventIndex },
     reserveOk,
     desc.func :: desc.parameters⟩

/-! ## addEvent: unsafe-argument policy and delay clamping -/

/-- The `LuaDataType` tag stored under key 't' of every registered class
metatable (`registerClass`, lines 3483-3501). -/
inductive LuaDataType where
  | unknown
  | item
  | container
  | teleport
  | player
  | monster
  | npc
  | tile
deriving DecidableEq, Repr

/-- A Lua value passed as a trailing `addEvent` argument: either a tagged
object reference (userdata with a class metatable; `stableId` is what
`Item.getUniqueId` resp. `Creature.getId` returns for it) or a plain value
with no metatable. -/
inductive LuaArg where
  | objectRef (t : LuaDataType) (stableId : Nat) (addr : Nat)
  | value (n : Nat)
deriving DecidableEq, Repr

/-- The scan condition of `luaAddEvent` (lines 3930-3938): the argument has
a metatable and its 't' field is neither `LuaData_Unknown` nor
`LuaData_Tile`. -/
def isUnsafeArg : LuaArg → Bool
  | .objectRef t _ _ => t ≠ LuaDataType.unknown && t ≠ LuaDataType.tile
  | .value _ => false

/-- One step of the conversion loop (lines 3973-3996): item-like kinds are
replaced by `Item.getUniqueId(arg)`, creature kinds by
`Creature.getId(arg)`; the remaining kinds are never collected by the scan,
so the default branch leaves the argument alone. -/
def convertArg : LuaArg → LuaArg
  | .objectRef t sid addr =>
    match t with
    | .item => .value sid
    | .container => .value sid
    | .teleport => .value sid
    | .player => .value sid
    | .monster => .value sid
    | .npc => .value sid
    | .unknown => .objectRef t sid addr
    | .tile => .objectRef t sid addr
  | .value n => .value n

/-- The index-collection loop of `luaAddEvent` (lines 3929-3940), with
0-based positions in place of the C++ stack indexes 3..parameters. -/
def unsafeIndexes : Nat → List LuaArg → List Nat
  | _, [] => []
  | i, a :: rest =>
    if isUnsafeArg a then i :: unsafeIndexes (i + 1) rest
    else unsafeIndexes (i + 1) rest

/-- The conversion loop of `luaAddEvent` (lines 3973-3996): every slot
whose position was collected in `idxs` is rewritten by `convertArg` (the
C++ iterates `idxs` and replaces each stack slot; as each position occurs
at most once this is the same rewrite). -/
def applyConversions (idxs : List Nat) : Nat → List LuaArg → List LuaArg
  | _, [] => []
  | i, a :: rest =>
    (if i ∈ idxs then convertArg a else a) :: applyConversions idxs (i + 1) rest

/-- The whole unsafe-argument block of `luaAddEvent` (lines 3927-3999):
runs only when warning or conversion is configured; when some argument is
unsafe, a warning may be printed (pure I/O, not modelled) and, under the
convert policy, the collected slots are rewritten. -/
def processEventArgs (warnPolicy convertPolicy : Bool) (args : List LuaArg) :
    List LuaArg :=
  if warnPolicy || convertPolicy then
    let idxs := unsafeIndexes 0 args
    if idxs.isEmpty then args
    else if convertPolicy then applyConversions idxs 0 args
    else args
  else args

structure AddEventOutcome where
  ok : Bool
  token : Option Nat
  scheduledDelay : Option Nat
  captured : List LuaArg
  nextTimerId : Nat
deriving DecidableEq, Repr

/-- `LuaScriptInterface::luaAddEvent` (lines 3905-4019) at the value level:
a non-function callback or non-numeric delay pushes false; otherwise the
trailing arguments are processed per policy and captured via `luaL_ref`
(which pops from the stack top, hence the reversal, lines 4003-4005), the
delay handed to the scheduler is `std::max<uint32_t>(100, delay)` (line
4007), and the pre-increment `lastEventTimerId` is returned as the token
(lines 4013-4017). Descriptor registration at the registry-reference level
is covered by `LuaTimerState`. -/
def luaAddEvent (warnPolicy convertPolicy cbIsFunction delayIsNumber : Bool)
    (delayValue : Nat) (args : List LuaArg) (lastEventTimerId : Nat) :
    AddEventOutcome :=
  if !cbIsFunction then ⟨false, none, none, [], lastEventTimerId⟩
  else if !delayIsNumber then ⟨false, none, none, [], lastEventTimerId⟩
  else
    ⟨true,
     some lastEventTimerId,
     some (max 100 (delayValue % 4294967296)),
     (processEventArgs warnPolicy convertPolicy args).reverse,
     (lastEventTimerId + 1) % 4294967296⟩

/-! ## A small model of the Lua C stack, for `luaIsType`

Values carry table/userdata identities; tables live in a heap keyed by id
and map integer keys (`lua_rawgeti`) and string keys (`lua_getfield`) to
values. Stack indexes follow the C API: positive indexes are 1-based from
the bottom, negative indexes count from the top; an invalid index is
C-level undefined behaviour and becomes `Except.error`. -/

inductive LVal where
  | nil
  | num (n : Int)
  | boolean (b : Bool)
  | table (id : Nat)
  | userdata (id : Nat)
deriving DecidableEq, Repr

inductive LKey where
  | ik (n : Int)
  | sk (s : String)
deriving DecidableEq, Repr

structure LTable where
  entries : List (LKey × LVal)
  meta : Option Nat
deriving DecidableEq, Repr

/-- Raw table read (no metamethods), defaulting to nil. -/
def LTable.rawget (t : LTable) (k : LKey) : LVal :=
  match t.entries.find? (fun p => p.1 = k) with
  | some p => p.2
  | none => LVal.nil

structure LuaMachine where
  tables : List (Nat × LTable)
  udMeta : List (Nat × Nat)
  stack : List LVal
deriving DecidableEq, Repr

/-- Resolve a C-API stack index to a 0-based position. -/
def luaAbsIndex (m : LuaMachine) (i : Int) : Except String Nat :=
  let n : Int := m.stack.length
  let j : Int := if i > 0 then i - 1 else n + i
  if 0 ≤ j ∧ j < n then Except.ok j.toNat else Except.error "invalid stack index"

def luaStackAt (m : LuaMachine) (i : Int) : Except String LVal := do
  let j ← luaAbsIndex m i
  match m.stack[j]? with
  | some v => Except.ok v
  | none => Except.error "invalid stack index"

def luaPush (m : LuaMachine) (v : LVal) : LuaMachine :=
  { m with stack := m.stack ++ [v] }

def luaFindTable (m : LuaMachine) (id : Nat) : Except String LTable :=
  match mapFind m.tables id with
  | some t => Except.ok t
  | none => Except.error "dangling table id"

/-- Metatable of a value: per-object for userdata, per-table for tables
(other values have none here). -/
def luaMetaOf (m : LuaMachine) (v : LVal) : Option Nat :=
  match v with
  | LVal.table id =>
    match mapFind m.tables id with
    | some t => t.meta
    | none => none
  | LVal.userdata id => mapFind m.udMeta id
  | _ => none

/-- `lua_getmetatable(L, i)`: when the value at `i` has a metatable, push
it and return 1; otherwise push nothing and return 0 (the source ignores
the return value). -/
def luaGetmetatable (m : LuaMachine) (i : Int) :
    Except String (LuaMachine × Bool) := do
  let v ← luaStackAt m i
  match luaMetaOf m v with
  | some mtId => Except.ok (luaPush m (LVal.table mtId), true)
  | none => Except.ok (m, false)

/-- `lua_rawgeti(L, i, k)`: the value at `i` must be a table; push `t[k]`
without metamethods. -/
def luaRawgeti (m : LuaMachine) (i : Int) (k : Int) :
    Except String LuaMachine := do
  let v ← luaStackAt m i
  match v with
  | LVal.table id => do
    let t ← luaFindTable m id
    Except.ok (luaPush m (t.rawget (LKey.ik k)))
  | _ => Except.error "rawgeti on non-table"

/-- Table read honouring the `__index` chain, with a fuel bound standing in
for Lua's tag-method loop limit. -/
def luaGetfieldAux (m : LuaMachine) : Nat → LVal → String → Except String LVal
  | 0, _, _ => Except.error "gettable chain too long"
  | fuel + 1, v, k =>
    match v with
    | LVal.table id => do
      let t ← luaFindTable m id
      match t.rawget (LKey.sk k) with
      | LVal.nil =>
        match t.meta with
        | none => Except.ok LVal.nil
        | some mtId => luaGetfieldAux m fuel (LVal.table mtId) k
      | w => Except.ok w
    | _ => Except.error "getfield on non-table"

/-- `lua_getfield(L, i, k)`: push the result of indexing the value at `i`. -/
def luaGetfield (m : LuaMachine) (i : Int) (k : String) :
    Except String LuaMachine := do
  let v ← luaStackAt m i
  let w ← luaGetfieldAux m 2000 v k
  Except.ok (luaPush m w)

def luaSetAt (m : LuaMachine) (j : Nat) (v : LVal) : LuaMachine :=
  { m with stack := m.stack.set j v }

/-- `lua_replace(L, i)`: pop the top value and store it at index `i`. -/
def luaReplace (m : LuaMachine) (i : Int) : Except String LuaMachine := do
  match m.stack.getLast? with
  | none => Except.error "replace on empty stack"
  | some top => do
    let j ← luaAbsIndex m i
    let m1 := luaSetAt m j top
    Except.ok { m1 with stack := m1.stack.dropLast }

/-- `lua_tonumber` coercion as used by `getNumber<T>`: non-numbers coerce
to 0. -/
def luaToNumber : LVal → Int
  | LVal.num n => n
  | _ => 0

/-- `getNumber<uint_fast8_t>(L, i)` (the helper is declared in
luascript.h; its body is `static_cast<T>(lua_tonumber(L, arg))`, the
semantics every other call site in this file relies on, e.g.
`getNumber<uint32_t>(L, 1)` in `luaStopEvent` reading argument 1). -/
def getNumberU8 (m : LuaMachine) (i : Int) : Except String Nat := do
  let v ← luaStackAt m i
  Except.ok ((luaToNumber v).emod 256).toNat

/-- `getNumber<size_t>(L, i)`. -/
def getNumberU64 (m : LuaMachine) (i : Int) : Except String Nat := do
  let v ← luaStackAt m i
  Except.ok ((luaToNumber v).emod 18446744073709551616).toNat

/-- The walk loop of `luaIsType` (lines 4433-4436):
`for (i = parentsA; i < parentsB; ++i) { getfield(-3, "__index"); replace(-4); }`,
which runs `parentsB - parentsA` times. -/
def isTypeWalk (m : LuaMachine) : Nat → Except String LuaMachine
  | 0 => Except.ok m
  | n + 1 => do
    let m1 ← luaGetfield m (-3) "__index"
    let m2 ← luaReplace m1 (-4)
    isTypeWalk m2 n

/-- `LuaScriptInterface::luaIsType` (lines 4419-4443), step for step. The
stack holds the two arguments `(derived, base)`. Note that all four
`getNumber` calls read stack index 1 — the first argument — exactly as the
source does. The returned boolean is the value pushed by `pushBoolean`. -/
def luaIsType (m0 : LuaMachine) : Except String (LuaMachine × Bool) := do
  let (m1, _) ← luaGetmetatable m0 (-2)
  let (m2, _) ← luaGetmetatable m1 (-2)
  let m3 ← luaRawgeti m2 (-2) 112
  let parentsB ← getNumberU8 m3 1
  let m4 ← luaRawgeti m3 (-3) 104
  let hashB ← getNumberU64 m4 1
  let m5 ← luaRawgeti m4 (-3) 112
  let parentsA ← getNumberU8 m5 1
  let m6 ← isTypeWalk m5 (parentsB - parentsA)
  let m7 ← luaRawgeti m6 (-4) 104
  let hashA ← getNumberU64 m7 1
  Except.ok (luaPush m7 (LVal.boolean (hashA = hashB)), hashA = hashB)

/-- The per-class registry metatable built by
`LuaScriptInterface::registerClass` (lines 3433-3505): key 'h' holds the
name hash, 'p' the parent-chain depth, 't' the `LuaDataType` tag. -/
def classMetatable (hash depth tag : Int) : LTable :=
  ⟨[(LKey.ik 104, LVal.num hash), (LKey.ik 112, LVal.num depth),
    (LKey.ik 116, LVal.num tag)], none⟩

/-! ## Claim-side dispatch rule and concrete instances -/

/-- Dispatch rule exactly as claim C8 words it (claim-side definition, for
comparison with the source's `getThingByUID`): uids at or above 0x10000000
consult only the creature lookup; uids in [1, 0xFFFF] consult only the
unique-object lookup, rejecting removed objects; all other uids are looked
up only in the context's local table, rejecting removed objects. -/
def resolveUidClaim (env : ScriptEnvironment) (g : GameState) (uid : Nat) :
    Option Thing :=
  if uid ≥ 0x10000000 then g.creaturesById uid
  else if 1 ≤ uid ∧ uid ≤ 0xFFFF then
    match g.uniqueItems uid with
    | some item => if !item.removed then some (Thing.item item) else none
    | none => none
  else
    match mapFind env.localMap uid with
    | some item => if !item.removed then some (Thing.item item) else none
    | none => none

/-- A game state in which neither engine lookup knows any object. -/
def gNone : GameState := ⟨fun _ => none, fun _ => none⟩

/-- A live item with no ITEM_ATTRIBUTE_UNIQUEID, at pointer address 5. -/
def item0 : Item := ⟨5, none, false, false⟩

/-- A second live item at a different address. -/
def itemB : Item := ⟨6, none, false, false⟩

/-- A freshly reset script environment (`lastUID` at its base 0xFFFF). -/
def env0 : ScriptEnvironment := ⟨0, 0, false, none, [], 65535⟩

/-- An environment currently processing callback id 5. -/
def env5 : ScriptEnvironment := ⟨0, 5, false, none, [], 65535⟩

/-- An environment whose local table binds uid 70000 to `item0`. -/
def envC10 : ScriptEnvironment := ⟨0, 0, false, none, [(70000, item0)], 70000⟩

/-- An environment whose local table binds uid 0 to a live item. -/
def envLocalZero : ScriptEnvironment := ⟨0, 0, false, none, [(0, item0)], 131072⟩

/-- A temp item parented by the virtual (placeholder) cylinder. -/
def tempItem : Item := ⟨7, none, false, true⟩

/-- Static state holding one temp item owned by environment 1. -/
def gTemp : LuaGlobalState := ⟨[], 0, [(1, tempItem)]⟩

/-- Empty static state. -/
def gEmpty : LuaGlobalState := ⟨[], 0, []⟩

/-- A timer descriptor: callback ref 10, captured argument refs 11 and 12,
script id 3, scheduler token 99. -/
def desc1 : LuaTimerEventDesc := ⟨10, [11, 12], 3, 99⟩

/-- A timer registry holding `desc1` under token 5. -/
def st1 : LuaTimerState := ⟨[(5, desc1)], 6⟩

/-- Two registered, unrelated classes — name hashes 111 and 222, both of
parent depth 0 — with one userdata instance of each on the stack, as the
call `isType(a, b)` sees them. -/
def bugMachine : LuaMachine :=
  ⟨[(10, classMetatable 111 0 0), (20, classMetatable 222 0 0)],
   [(1, 10), (2, 20)],
   [LVal.userdata 1, LVal.userdata 2]⟩

/-! ## Helper lemmas about the map model -/

theorem mapFind_insertSorted_self {α : Type} (m : List (Nat × α)) (k : Nat) (v : α) :
    mapFind (mapInsertSorted m k v) k = some v := by
  induction m with
  | nil => simp [mapInsertSorted, mapFind]
  | cons hd tl ih =>
    obtain ⟨k', v'⟩ := hd
    by_cases h1 : k < k'
    · simp [mapInsertSorted, h1, mapFind]
    · by_cases h2 : k = k'
      · simp [mapInsertSorted, h1, h2, mapFind]
      · simp [mapInsertSorted, h1, h2, mapFind, ih]

theorem mapFind_eq_none_of_not_mem_keys {α : Type} {m : List (Nat × α)} {k : Nat}
    (h : k ∉ m.map Prod.fst) : mapFind m k = none := by
  induction m with
  | nil => rfl
  | cons hd tl ih =>
    obtain ⟨k', v'⟩ := hd
    simp only [List.map_cons, List.mem_cons] at h
    push_neg at h
    simp [mapFind, h.1, ih h.2]

theorem mapFind_mapErase_self {α : Type} {m : List (Nat × α)} (k : Nat)
    (h : (m.map Prod.fst).Nodup) : mapFind (mapErase m k) k = none := by
  induction m with
  | nil => rfl
  | cons hd tl ih =>
    obtain ⟨k', v'⟩ := hd
    simp only [List.map_cons, List.nodup_cons] at h
    by_cases he : k = k'
    · subst he
      simpa [mapErase] using mapFind_eq_none_of_not_mem_keys h.1
    · simp [mapErase, he, mapFind, ih h.2]

theorem findUidFor_insertSorted {m : List (Nat × Item)} {i : Item} (k : Nat)
    (h : findUidFor m i = none) :
    findUidFor (mapInsertSorted m k i) i = some k := by
  induction m with
  | nil => simp [mapInsertSorted, findUidFor]
  | cons hd tl ih =>
    obtain ⟨k', v'⟩ := hd
    simp only [findUidFor] at h
    by_cases ha : v'.addr = i.addr
    · simp [ha] at h
    · simp only [ha, if_false] at h
      by_cases h1 : k < k'
      · simp [mapInsertSorted, h1, findUidFor]
      · by_cases h2 : k = k'
        · simp [mapInsertSorted, h1, h2, findUidFor]
        · simp [mapInsertSorted, h1, h2, findUidFor, ha, ih h]

theorem countEntriesFor_eq_zero {m : List (Nat × Item)} {i : Item}
    (h : findUidFor m i = none) : countEntriesFor m i = 0 := by
  induction m with
  | nil => rfl
  | cons hd tl ih =>
    obtain ⟨k', v'⟩ := hd
    simp only [findUidFor] at h
    by_cases ha : v'.addr = i.addr
    · simp [ha] at h
    · simp only [ha, if_false] at h
      simpa [countEntriesFor, ha] using ih h

theorem countEntriesFor_insertSorted {m : List (Nat × Item)} {i : Item} (k : Nat)
    (h : findUidFor m i = none) :
    countEntriesFor (mapInsertSorted m k i) i = 1 := by
  induction m with
  | nil => simp [mapInsertSorted, countEntriesFor]
  | cons hd tl ih =>
    obtain ⟨k', v'⟩ := hd
    simp only [findUidFor] at h
    by_cases ha : v'.addr = i.addr
    · simp [ha] at h
    · simp only [ha, if_false] at h
      by_cases h1 : k < k'
      · simp [mapInsertSorted, h1, countEntriesFor, ha, countEntriesFor_eq_zero h]
      · by_cases h2 : k = k'
        · simp [mapInsertSorted, h1, h2, countEntriesFor, countEntriesFor_eq_zero h]
        · simp [mapInsertSorted, h1, h2, countEntriesFor, ha, ih h]

theorem resetTempLoop_released (self : Nat) (l : List (Nat × Item)) :
    (resetTempLoop self l).2 = [] := by
  induction l with
  | nil => rfl
  | cons hd tl ih =>
    obtain ⟨owner, item⟩ := hd
    by_cases h : owner = self <;> simp [resetTempLoop, h, ih]

theorem resetTempLoop_filter (self : Nat) (l : List (Nat × Item)) :
    ((resetTempLoop self l).1.filter (fun p => p.1 = self)) = [] := by
  induction l with
  | nil => rfl
  | cons hd tl ih =>
    obtain ⟨owner, item⟩ := hd
    by_cases h : owner = self <;> simp [resetTempLoop, h, ih]

/-! ## Claim theorems -/

/-- Claim C1: for an object that is not null, not removed, carries no
creature identity and no global unique id (and is not yet in the table,
`lastUID` lying in the local range), `resolve(addReference(o))` returns `o`
in the same context; a second `addReference(o)` returns the same uid and
leaves the context unchanged, the table holding exactly one entry for `o`. -/
theorem addThing_resolve_roundtrip (env : ScriptEnvironment) (g : GameState)
    (i : Item)
    (hrm : i.removed = false) (huid : i.uniqueId = none)
    (hfresh : findUidFor env.localMap i = none)
    (hlo : 0xFFFF ≤ env.lastUID) (hhi : env.lastUID + 1 < 0x10000000) :
    getThingByUID (addThing env (some (Thing.item i))).2 g
        (addThing env (some (Thing.item i))).1 = some (Thing.item i) ∧
    (addThing (addThing env (some (Thing.item i))).2 (some (Thing.item i))).1
      = (addThing env (some (Thing.item i))).1 ∧
    (addThing (addThing env (some (Thing.item i))).2 (some (Thing.item i))).2
      = (addThing env (some (Thing.item i))).2 ∧
    countEntriesFor (addThing env (some (Thing.item i))).2.localMap i = 1 := by
  have hmod : (env.lastUID + 1) % 4294967296 = env.lastUID + 1 :=
    Nat.mod_eq_of_lt (by omega)
  have h1 : addThing env (some (Thing.item i)) =
      (env.lastUID + 1,
       { env with lastUID := env.lastUID + 1,
                  localMap := mapInsertSorted env.localMap (env.lastUID + 1) i }) := by
    simp [addThing, Thing.isRemoved, hrm, huid, hfresh, hmod]
  rw [h1]
  have hfind := findUidFor_insertSorted (m := env.localMap) (i := i)
    (env.lastUID + 1) hfresh
  refine ⟨?_, ?_, ?_, ?_⟩
  · have hnc : ¬ (env.lastUID + 1 ≥ 0x10000000) := by omega
    have hnu : ¬ (env.lastUID + 1 ≤ 0xFFFF) := by omega
    simp [getThingByUID, hnc, hnu, mapFind_insertSorted_self, hrm]
  · simp [addThing, Thing.isRemoved, hrm, huid, hfind]
  · simp [addThing, Thing.isRemoved, hrm, huid, hfind]
  · exact countEntriesFor_insertSorted (env.lastUID + 1) hfresh

/-- Witness for C1 at a concrete fresh environment and live item. -/
theorem addThing_resolve_roundtrip_witness :
    findUidFor env0.localMap item0 = none ∧
    getThingByUID (addThing env0 (some (Thing.item item0))).2 gNone
        (addThing env0 (some (Thing.item item0))).1 = some (Thing.item item0) :=
  ⟨rfl, (addThing_resolve_roundtrip env0 gNone item0 rfl rfl rfl
    (by decide) (by decide)).1⟩

/-- Claim C7: a context already processing a callback id c ≠ 0 rejects a
second callback id — the call fails and the context keeps its callback id
and interface pointer; with no active callback the new id is stored and the
call succeeds. -/
theorem setCallbackId_nested_rejection (env : ScriptEnvironment) (cb : Int)
    (ifaceId : Nat) :
    (env.callbackId ≠ 0 →
      setCallbackId env cb ifaceId = (false, env) ∧
      (setCallbackId env cb ifaceId).2.callbackId = env.callbackId ∧
      (setCallbackId env cb ifaceId).2.interface = env.interface) ∧
    (env.callbackId = 0 →
      setCallbackId env cb ifaceId =
        (true, { env with callbackId := cb, interface := some ifaceId })) := by
  constructor
  · intro h
    simp [setCallbackId, h]
  · intro h
    simp [setCallbackId, h]

/-- Witness for C7: a context processing callback id 5 rejects id 9 and
keeps id 5. -/
theorem setCallbackId_nested_rejection_witness :
    env5.callbackId ≠ 0 ∧ setCallbackId env5 9 1 = (false, env5) :=
  ⟨by decide, ((setCallbackId_nested_rejection env5 9 1).1 (by decide)).1⟩

/-- Claim C10: `insertItem` on a uid already bound in the local table
leaves the table unchanged — the call reports failure (printing only a
diagnostic) and the pre-existing binding survives. -/
theorem insertItem_preserves_binding (env : ScriptEnvironment) (uid : Nat)
    (newItem oldItem : Item) (h : mapFind env.localMap uid = some oldItem) :
    insertItem env uid newItem = (env, false) ∧
    mapFind (insertItem env uid newItem).1.localMap uid = some oldItem := by
  constructor
  · simp [insertItem, mapEmplace, h]
  · simp [insertItem, mapEmplace, h]

/-- Witness for C10 at a table binding uid 70000 to `item0`. -/
theorem insertItem_preserves_binding_witness :
    mapFind envC10.localMap 70000 = some item0 ∧
    insertItem envC10 70000 itemB = (envC10, false) :=
  ⟨rfl, (insertItem_preserves_binding envC10 70000 itemB item0 rfl).1⟩

/-- Claim C3: cancelling an unknown or already-fired token returns false
and changes nothing; cancelling before the fire removes the descriptor so
the trampoline never runs, and on both the fire path and the cancel path
the callback reference and every captured argument reference is released
exactly once. -/
theorem stopEvent_cancel_spec (st : LuaTimerState) (tok : Nat)
    (hkeys : (st.timerEvents.map Prod.fst).Nodup) :
    (mapFind st.timerEvents tok = none →
      luaStopEvent st tok = ⟨false, st, [], []⟩) ∧
    (∀ desc, mapFind st.timerEvents tok = some desc →
      (desc.func :: desc.parameters).Nodup →
      (luaStopEvent st tok).returned = true ∧
      mapFind (luaStopEvent st tok).timers.timerEvents tok = none ∧
      (∀ r ∈ desc.func :: desc.parameters,
        (luaStopEvent st tok).unrefs.count r = 1) ∧
      (∀ ok, executeTimerEvent (luaStopEvent st tok).timers ok tok =
        ⟨(luaStopEvent st tok).timers, false, []⟩) ∧
      (∀ ok,
        (∀ r ∈ desc.func :: desc.parameters,
          (executeTimerEvent st ok tok).unrefs.count r = 1) ∧
        mapFind (executeTimerEvent st ok tok).timers.timerEvents tok = none ∧
        luaStopEvent (executeTimerEvent st ok tok).timers tok =
          ⟨false, (executeTimerEvent st ok tok).timers, [], []⟩)) := by
  have herase : mapFind (mapErase st.timerEvents tok) tok = none :=
    mapFind_mapErase_self tok hkeys
  constructor
  · intro h
    simp [luaStopEvent, h]
  · intro desc h hnd
    refine ⟨?_, ?_, ?_, ?_, ?_⟩
    · simp [luaStopEvent, h]
    · simpa [luaStopEvent, h] using herase
    · intro r hr
      simpa [luaStopEvent, h] using List.count_eq_one_of_mem hnd hr
    · intro ok
      have h2 : mapFind (luaStopEvent st tok).timers.timerEvents tok = none := by
        simpa [luaStopEvent, h] using herase
      simp [executeTimerEvent, h2]
    · intro ok
      refine ⟨?_, ?_, ?_⟩
      · intro r hr
        simpa [executeTimerEvent, h] using List.count_eq_one_of_mem hnd hr
      · simpa [executeTimerEvent, h] using herase
      · have h2 : mapFind (executeTimerEvent st ok tok).timers.timerEvents tok = none := by
          simpa [executeTimerEvent, h] using herase
        simp [luaStopEvent, h2]

/-- Witness for C3: the concrete registry `st1` (token 5, callback ref 10,
argument refs 11 and 12); cancelling returns true. -/
theorem stopEvent_cancel_spec_witness :
    (st1.timerEvents.map Prod.fst).Nodup ∧ (luaStopEvent st1 5).returned = true :=
  ⟨by decide, ((stopEvent_cancel_spec st1 5 (by decide)).2 desc1 rfl (by decide)).1⟩

/-- Claim C4 (counterexample): a temp item owned by environment 1 and still
parented by the placeholder (virtual) container is *not* released back to
the engine on reset — the release call is commented out in the source — even
though the entry itself is erased. The claim, as stated, requires
`tempItem ∈ released`. -/
theorem resetEnv_no_release_counterexample :
    gTemp.tempItems = [(1, tempItem)] ∧
    tempItem.inVirtualCylinder = true ∧
    tempItem ∉ (resetEnv 1 env0 gTemp).2.2 ∧
    ((resetEnv 1 env0 gTemp).2.1.tempItems.filter (fun p => p.1 = 1)) = [] := by
  refine ⟨rfl, rfl, ?_, ?_⟩
  · decide
  · decide

/-- Claim C4 (amended): when a context is reset, all of its temp-object
entries are erased (zero entries afterwards) and its local uid table is
cleared, but no engine release call is performed — the
`g_game.ReleaseItem` call is disabled in the source. -/
theorem resetEnv_clears_entries (self : Nat) (env : ScriptEnvironment)
    (g : LuaGlobalState) :
    (resetEnv self env g).2.2 = [] ∧
    ((resetEnv self env g).2.1.tempItems.filter (fun p => p.1 = self)) = [] ∧
    (resetEnv self env g).1.localMap = [] ∧
    (resetEnv self env g).2.1.tempResults = [] := by
  refine ⟨?_, ?_, rfl, rfl⟩
  · simpa [resetEnv] using resetTempLoop_released self g.tempItems
  · simpa [resetEnv] using resetTempLoop_filter self g.tempItems

/-- Claim C5 (counterexample): `tempResults` is a static member shared by
every context. A result stored through one context (id 1, handle 77) is
erased when a *different* context (environment 1) is reset: the lookup that
the claim requires to still succeed returns none. -/
theorem tempResults_shared_counterexample :
    (addResult gEmpty 77).1 = 1 ∧
    getResultByID (addResult gEmpty 77).2 1 = some 77 ∧
    getResultByID (resetEnv 1 env0 (addResult gEmpty 77).2).2.1 1 = none := by
  refine ⟨rfl, rfl, ?_⟩
  decide

/-- Claim C5 (amended): the async-result cache is a single static table
shared by all contexts — a result added through any context is globally
visible under its returned id, and resetting any one context clears the
entire cache for every context. -/
theorem tempResults_shared_spec (g : LuaGlobalState) (res : Nat)
    (self : Nat) (env : ScriptEnvironment) :
    getResultByID (addResult g res).2 (addResult g res).1 = some res ∧
    (resetEnv self env (addResult g res).2).2.1.tempResults = [] := by
  constructor
  · simp [addResult, getResultByID, mapFind_insertSorted_self]
  · simp [resetEnv]

/-- Claim C8 (counterexample): the claim routes every uid outside
[1, 0xFFFF] and below 0x10000000 to the local table, but the source sends
uid 0 to the engine unique-object lookup: with uid 0 bound to a live item
in the local table and no unique object registered, the claim's dispatch
yields the item while `getThingByUID` yields none. -/
theorem resolve_uid_zero_counterexample :
    mapFind envLocalZero.localMap 0 = some item0 ∧
    item0.removed = false ∧
    resolveUidClaim envLocalZero gNone 0 = some (Thing.item item0) ∧
    getThingByUID envLocalZero gNone 0 = none ∧
    getThingByUID envLocalZero gNone 0 ≠ resolveUidClaim envLocalZero gNone 0 := by
  refine ⟨rfl, rfl, ?_, rfl, ?_⟩
  · decide
  · decide

/-- Claim C8 (amended): `resolve` dispatches strictly by range — uids at or
above 0x10000000 consult only the engine creature lookup (for any local
table); uids in [0, 0xFFFF], including 0, consult only the engine
unique-object lookup with a removed check (for any local table); and uids
strictly between 0xFFFF and 0x10000000 consult only the context's local
table with a removed check (for any engine state). -/
theorem resolve_dispatch_by_range (env env2 : ScriptEnvironment)
    (g g2 : GameState) (uid : Nat) :
    (0x10000000 ≤ uid →
      getThingByUID env g uid = g.creaturesById uid ∧
      getThingByUID env g uid = getThingByUID env2 g uid) ∧
    (uid ≤ 0xFFFF →
      getThingByUID env g uid =
        (match g.uniqueItems uid with
         | some item => if !item.removed then some (Thing.item item) else none
         | none => none) ∧
      getThingByUID env g uid = getThingByUID env2 g uid) ∧
    (0xFFFF < uid → uid < 0x10000000 →
      getThingByUID env g uid =
        (match mapFind env.localMap uid with
         | some item => if !item.removed then some (Thing.item item) else none
         | none => none) ∧
      getThingByUID env g uid = getThingByUID env g2 uid) := by
  refine ⟨?_, ?_, ?_⟩
  · intro h
    constructor <;> simp [getThingByUID, h]
  · intro h
    have h1 : ¬ (uid ≥ 0x10000000) := by omega
    constructor <;> simp [getThingByUID, h1, h]
  · intro hl hh
    have h1 : ¬ (uid ≥ 0x10000000) := by omega
    have h2 : ¬ (uid ≤ 0xFFFF) := by omega
    constructor <;> simp [getThingByUID, h1, h2]

/-- Witness for C8 (amended), creature branch at uid 0x10000000: the result
is the engine creature lookup, with the local table never consulted. -/
theorem resolve_dispatch_by_range_witness :
    (0x10000000 ≤ 268435456) ∧
    getThingByUID envLocalZero gNone 268435456 = gNone.creaturesById 268435456 :=
  ⟨by decide,
   ((resolve_dispatch_by_range envLocalZero env0 gNone gNone 268435456).1
     (by decide)).1⟩

/-- Claim C2: `isType` on instances of two *unrelated* registered classes —
stored name hashes 111 and 222, both parent depth 0 — nevertheless pushes
true: every `getNumber` call in `luaIsType` reads stack index 1, the first
argument, a userdata that `lua_tonumber` coerces to 0, so the final
comparison is 0 = 0 whatever the registered hashes are. The claim (and the
walk-and-compare intent visible in the function body) says this must be
false. -/
theorem luaIsType_unrelated_types_true :
    (luaIsType bugMachine).toOption.map (fun p => p.2) = some true ∧
    (luaFindTable bugMachine 10).toOption.map (fun t => t.rawget (LKey.ik 104))
      = some (LVal.num 111) ∧
    (luaFindTable bugMachine 20).toOption.map (fun t => t.rawget (LKey.ik 104))
      = some (LVal.num 222) := by
  refine ⟨?_, rfl, rfl⟩
  decide

theorem not_mem_unsafeIndexes (args : List LuaArg) :
    ∀ {k i : Nat}, i < k → i ∉ unsafeIndexes k args := by
  induction args with
  | nil =>
    intro k i _
    simp [unsafeIndexes]
  | cons a rest ih =>
    intro k i hlt
    by_cases h : isUnsafeArg a
    · simp only [unsafeIndexes, h, if_true, List.mem_cons, not_or]
      exact ⟨by omega, ih (by omega)⟩
    · simp only [unsafeIndexes, h, if_false]
      exact ih (by omega)

theorem applyConversions_eq_map (args : List LuaArg) :
    ∀ (k : Nat) (idxs : List Nat),
      (∀ j, k ≤ j → (j ∈ idxs ↔ j ∈ unsafeIndexes k args)) →
      applyConversions idxs k args =
        args.map (fun a => if isUnsafeArg a then convertArg a else a) := by
  induction args with
  | nil =>
    intro k idxs _
    simp [applyConversions]
  | cons a rest ih =>
    intro k idxs hinv
    have hhead : (k ∈ idxs) ↔ (isUnsafeArg a = true) := by
      rw [hinv k (le_refl k)]
      by_cases h : isUnsafeArg a
      · simp [unsafeIndexes, h]
      · simp [unsafeIndexes, h,
          not_mem_unsafeIndexes rest (Nat.lt_succ_self k)]
    have htail : ∀ j, k + 1 ≤ j → (j ∈ idxs ↔ j ∈ unsafeIndexes (k + 1) rest) := by
      intro j hj
      rw [hinv j (by omega)]
      by_cases h : isUnsafeArg a
      · simp only [unsafeIndexes, h, if_true, List.mem_cons]
        constructor
        · rintro (heq | hmem)
          · omega
          · exact hmem
        · intro hmem
          exact Or.inr hmem
      · simp [unsafeIndexes, h]
    simp only [applyConversions, List.map_cons]
    congr 1
    · by_cases h : isUnsafeArg a
      · rw [if_pos (hhead.mpr h), if_pos h]
      · rw [if_neg (fun hm => h (hhead.mp hm)), if_neg h]
    · exact ih (k + 1) idxs htail

theorem map_eq_of_unsafeIndexes_nil (args : List LuaArg) :
    ∀ {k : Nat}, unsafeIndexes k args = [] →
      args.map (fun a => if isUnsafeArg a then convertArg a else a) = args := by
  induction args with
  | nil =>
    intro k _
    rfl
  | cons a rest ih =>
    intro k h
    by_cases hu : isUnsafeArg a
    · simp [unsafeIndexes, hu] at h
    · simp only [unsafeIndexes, hu, if_false] at h
      simp [hu, ih h]

theorem processEventArgs_convert (warnPolicy : Bool) (args : List LuaArg) :
    processEventArgs warnPolicy true args =
      args.map (fun a => if isUnsafeArg a then convertArg a else a) := by
  rcases he : unsafeIndexes 0 args with _ | ⟨x, xs⟩
  · simp only [processEventArgs, Bool.or_true, if_true, he, List.isEmpty_nil]
    exact (map_eq_of_unsafeIndexes_nil args he).symm
  · simp only [processEventArgs, Bool.or_true, if_true, he, List.isEmpty_cons]
    exact applyConversions_eq_map args 0 (x :: xs) (fun j _ => by rw [he])

/-- Claim C6: with the convert policy enabled, every `addEvent` argument
flagged unsafe (a tagged object reference other than Unknown or Tile) is
captured in the timer descriptor as the object's stable id — an item-like
object as what `Item.getUniqueId` returns, a creature-like one as what
`Creature.getId` returns — while arguments of non-convertible kinds are
captured unchanged (the reversal reflects `luaL_ref` popping from the
stack top). -/
theorem addEvent_convert_unsafe_args (warnPolicy : Bool) (delayValue : Nat)
    (args : List LuaArg) (lastId : Nat) :
    (luaAddEvent warnPolicy true true true delayValue args lastId).captured =
      (args.map (fun a =>
        match a with
        | LuaArg.objectRef t sid addr =>
          if t = LuaDataType.unknown ∨ t = LuaDataType.tile
          then LuaArg.objectRef t sid addr
          else LuaArg.value sid
        | LuaArg.value n => LuaArg.value n)).reverse := by
  have hcap : (luaAddEvent warnPolicy true true true delayValue args lastId).captured =
      (processEventArgs warnPolicy true args).reverse := rfl
  rw [hcap, processEventArgs_convert]
  congr 1
  refine List.map_congr_left ?_
  intro a _
  cases a with
  | value n => rfl
  | objectRef t sid addr => cases t <;> rfl

/-- Claim C9: the delay handed to the external scheduler is
`max(delayMs, 100)`: a requested delay of 10 is scheduled as 100, and any
delay of at least 100 passes through unchanged. -/
theorem addEvent_delay_clamp (warnPolicy convertPolicy : Bool)
    (delayValue : Nat) (args : List LuaArg) (lastId : Nat)
    (h : delayValue < 4294967296) :
    (luaAddEvent warnPolicy convertPolicy true true delayValue args
        lastId).scheduledDelay = some (max 100 delayValue) ∧
    (100 ≤ delayValue →
      (luaAddEvent warnPolicy convertPolicy true true delayValue args
          lastId).scheduledDelay = some delayValue) ∧
    (luaAddEvent warnPolicy convertPolicy true true 10 args
        lastId).scheduledDelay = some 100 := by
  have hm : delayValue % 4294967296 = delayValue := Nat.mod_eq_of_lt h
  refine ⟨?_, ?_, ?_⟩
  · show some (max 100 (delayValue % 4294967296)) = some (max 100 delayValue)
    rw [hm]
  · intro h100
    show some (max 100 (delayValue % 4294967296)) = some delayValue
    rw [hm, Nat.max_eq_right h100]
  · show some (max 100 (10 % 4294967296)) = some 100
    rfl

/-- Witness for C9: `addEvent(cb, 10)` schedules at the floor of 100. -/
theorem addEvent_delay_clamp_witness :
    (10 : Nat) < 4294967296 ∧
    (luaAddEvent false false true true 10 [] 0).scheduledDelay = some 100 :=
  ⟨by decide, (addEvent_delay_clamp false false 10 [] 0 (by decide)).2.2⟩
